import Mathlib

/-!
Verification of the scan-orchestration, key-management and export-gate
logic of the Santa's Little Helper application (src/src/App.tsx).

The external services (wiki/github/reddit/news fetchers, the Gemini
judge and image generator) are boundary collaborators imported from
modules outside this component; they are modelled as an environment of
functions returning `Except String α`, where `Except.error e` stands
for a thrown exception whose `message` is `e` (the empty string models
an absent or empty message, both falsy in JavaScript).

State updates performed with `setState(prev => ...)` are modelled by
pure record updates; `handleScan` returns the list of states installed
by each `setState` call, in order, together with the final state and
the key-modal flag.
-/

namespace SantasHelper

/-- Scan status values of `AppState.status` (src/types, as used in App.tsx). -/
inductive Status where
  | idle
  | fetching_data
  | judging
  | generating_image
  | complete
  | error
deriving DecidableEq, Repr

/-- Verdict returned by the AI judgment; the component only consumes
`visual_prompt`, the remaining payload is abstracted as `verdict`. -/
structure Verdict where
  verdict : String
  visual_prompt : String
deriving DecidableEq, Repr

/-- Top-level UI state object (App.tsx lines 14-19). -/
structure AppState where
  status : Status
  error : Option String
  verdict : Option Verdict
  generatedImage : Option String
deriving DecidableEq, Repr

/-- Form submission payload: a source type and a free-text identifier. -/
structure ScanInput where
  type : String
  content : String
deriving DecidableEq, Repr

/-- Environment of external async calls consumed by `handleScan`
(App.tsx lines 6-10); a call that throws is `Except.error` carrying the
exception message. -/
structure ScanEnv where
  fetchWikiContent : String → Except String String
  fetchGithubActivity : String → Except String String
  fetchRedditActivity : String → String → Except String String
  performDeepResearch : String → String → Except String String
  judgeInput : String → String → Except String Verdict
  generateToyOrCoal : String → String → Except String String

/-- Message shown in the error banner: `err.message || fallback`
(App.tsx line 103); the empty string is falsy in JavaScript. -/
def errDisplay (e : String) : String :=
  if e = "" then "Something went wrong in the workshop." else e

/-- Evidence-fetch dispatch (App.tsx lines 62-75): route on
`input.type`, defaulting to the raw input content with no call. -/
def fetchEvidence (env : ScanEnv) (apiKey : String) (input : ScanInput) :
    Except String String :=
  if input.type = "wiki" then env.fetchWikiContent input.content
  else if input.type = "github" then env.fetchGithubActivity input.content
  else if input.type = "reddit" then env.fetchRedditActivity input.content apiKey
  else if input.type = "news" then env.performDeepResearch input.content apiKey
  else Except.ok input.content

/-- Result of one invocation of `handleScan`: the sequence of states
installed by `setState`, the final value of the state, and the final
value of `showKeyModal`. -/
structure ScanResult where
  trace : List AppState
  finalState : AppState
  showKeyModal : Bool
deriving Repr

/-- The scan orchestration handler (App.tsx lines 52-106). If the API
key is empty (falsy), the key modal opens and nothing else happens.
Otherwise the state is reset into `fetching_data`, the three stages run
in sequence inside the try block, and any `Except.error` from a stage
falls to the catch clause, which sets `status = error` with the
exception message or the fallback string. -/
def handleScan (env : ScanEnv) (apiKey : String) (input : ScanInput)
    (s0 : AppState) (showKeyModal0 : Bool) : ScanResult :=
  if apiKey = "" then
    { trace := [], finalState := s0, showKeyModal := true }
  else
    let s1 : AppState :=
      { s0 with status := Status.fetching_data, error := none,
                verdict := none, generatedImage := none }
    match fetchEvidence env apiKey input with
    | Except.error e =>
        let sE := { s1 with status := Status.error, error := some (errDisplay e) }
        { trace := [s1, sE], finalState := sE, showKeyModal := showKeyModal0 }
    | Except.ok textToAnalyze =>
      let s2 := { s1 with status := Status.judging }
      match env.judgeInput textToAnalyze apiKey with
      | Except.error e =>
          let sE := { s2 with status := Status.error, error := some (errDisplay e) }
          { trace := [s1, s2, sE], finalState := sE, showKeyModal := showKeyModal0 }
      | Except.ok verdict =>
        let s3 := { s2 with status := Status.generating_image, verdict := some verdict }
        match env.generateToyOrCoal verdict.visual_prompt apiKey with
        | Except.error e =>
            let sE := { s3 with status := Status.error, error := some (errDisplay e) }
            { trace := [s1, s2, s3, sE], finalState := sE, showKeyModal := showKeyModal0 }
        | Except.ok imageBase64 =>
            let s4 := { s3 with status := Status.complete, generatedImage := some imageBase64 }
            { trace := [s1, s2, s3, s4], finalState := s4, showKeyModal := showKeyModal0 }

/-- Processing flag (App.tsx line 123), passed as the `disabled` prop
of the input form (line 163). -/
def isProcessing (st : AppState) : Bool :=
  st.status == Status.fetching_data || st.status == Status.judging ||
    st.status == Status.generating_image

/-- JavaScript toUpperCase on one character, for the ASCII range used
by the password check. -/
def jsToUpperChar (c : Char) : Char :=
  if 97 ≤ c.toNat ∧ c.toNat ≤ 122 then Char.ofNat (c.toNat - 32) else c

/-- JavaScript String.prototype.toUpperCase, character-wise. -/
def jsToUpper (s : String) : String :=
  ⟨s.data.map jsToUpperChar⟩

/-- JavaScript String.prototype.trim: drop leading and trailing
whitespace. -/
def jsTrim (s : String) : String :=
  ⟨((s.data.dropWhile Char.isWhitespace).reverse.dropWhile Char.isWhitespace).reverse⟩

/-- Key-management state visible to `saveApiKey`: the in-memory key,
the local-storage entry for GEMINI_API_KEY, and the modal flag. -/
structure KeyState where
  apiKey : String
  storedKey : Option String
  showKeyModal : Bool
deriving DecidableEq, Repr

/-- Key save handler (App.tsx lines 43-50): a no-op unless the trimmed
input is truthy (non-empty), in which case the trimmed key is persisted
and set and the modal closes. -/
def saveApiKey (tempKey : String) (st : KeyState) : KeyState :=
  if jsTrim tempKey = "" then st
  else { apiKey := jsTrim tempKey, storedKey := some (jsTrim tempKey), showKeyModal := false }

/-- JavaScript truthiness of a nullable string: null and the empty
string are falsy. -/
def optTruthy (s : Option String) : Bool :=
  match s with
  | none => false
  | some v => v != ""

/-- Startup key initialization (App.tsx lines 32-41): the stored key if
truthy, else the build-time env key if truthy, else the initial empty
string from `useState('')`. -/
def initApiKey (storedKey : Option String) (envKey : Option String) : String :=
  if optTruthy storedKey then storedKey.getD ""
  else if optTruthy envKey then envKey.getD ""
  else ""

/-- Export-gate state visible to `handleUnlockSleigh`. -/
structure ExportState where
  showExportModal : Bool
  passwordError : Bool
deriving DecidableEq, Repr

/-- Export unlock handler (App.tsx lines 114-121): returns the updated
state together with whether `downloadRepo()` was called. -/
def handleUnlockSleigh (exportPassword : String) (st : ExportState) :
    ExportState × Bool :=
  if jsToUpper exportPassword = "HOHOHO" then
    ({ st with showExportModal := false }, true)
  else
    ({ st with passwordError := true }, false)

/-- Concrete environment in which every external call succeeds, used to
instantiate the theorems at executable inputs. -/
def envW : ScanEnv where
  fetchWikiContent := fun c => Except.ok ("wiki page for " ++ c)
  fetchGithubActivity := fun c => Except.ok ("github activity for " ++ c)
  fetchRedditActivity := fun c _ => Except.ok ("reddit activity for " ++ c)
  performDeepResearch := fun c _ => Except.ok ("research on " ++ c)
  judgeInput := fun _ _ => Except.ok { verdict := "nice", visual_prompt := "a toy reindeer" }
  generateToyOrCoal := fun _ _ => Except.ok "base64image"

/-- Environment whose image-generation call throws an exception with an
empty message, exercising the fallback banner text. -/
def envImgFailW : ScanEnv :=
  { envW with generateToyOrCoal := fun _ _ => Except.error "" }

/-- Initial application state, as set up at mount. -/
def idleState : AppState :=
  { status := Status.idle, error := none, verdict := none, generatedImage := none }

/-- Sample key-management state with the modal open. -/
def kst0 : KeyState := { apiKey := "", storedKey := none, showKeyModal := true }

/-- Sample export-modal state. -/
def est0 : ExportState := { showExportModal := true, passwordError := false }

/-- The displayed error message is never empty. -/
theorem errDisplay_ne_empty (e : String) : errDisplay e ≠ "" := by
  unfold errDisplay
  split
  · intro h
    exact absurd h (by decide)
  · assumption

/-- Claim C1: if the fetch, judge, or image step throws, the final
status is `error` with a non-empty message (the exception's message, or
the fallback string when it is empty), and `verdict` and
`generatedImage` keep their pre-failure values; in particular the
verdict stays populated when only the image step failed. -/
theorem scan_error_banner (env : ScanEnv) (apiKey : String) (input : ScanInput)
    (s0 : AppState) (m0 : Bool) (hk : apiKey ≠ "") :
    (∀ e, fetchEvidence env apiKey input = Except.error e →
      (handleScan env apiKey input s0 m0).finalState =
        { status := Status.error, error := some (errDisplay e),
          verdict := none, generatedImage := none } ∧ errDisplay e ≠ "")
  ∧ (∀ t e, fetchEvidence env apiKey input = Except.ok t →
      env.judgeInput t apiKey = Except.error e →
      (handleScan env apiKey input s0 m0).finalState =
        { status := Status.error, error := some (errDisplay e),
          verdict := none, generatedImage := none } ∧ errDisplay e ≠ "")
  ∧ (∀ t v e, fetchEvidence env apiKey input = Except.ok t →
      env.judgeInput t apiKey = Except.ok v →
      env.generateToyOrCoal v.visual_prompt apiKey = Except.error e →
      (handleScan env apiKey input s0 m0).finalState =
        { status := Status.error, error := some (errDisplay e),
          verdict := some v, generatedImage := none } ∧ errDisplay e ≠ "") := by
  refine ⟨?_, ?_, ?_⟩
  · intro e hf
    refine ⟨?_, errDisplay_ne_empty e⟩
    simp [handleScan, if_neg hk, hf]
  · intro t e hf hj
    refine ⟨?_, errDisplay_ne_empty e⟩
    simp [handleScan, if_neg hk, hf, hj]
  · intro t v e hf hj hg
    refine ⟨?_, errDisplay_ne_empty e⟩
    simp [handleScan, if_neg hk, hf, hj, hg]

/-- Witness for C1: a scan whose image step throws with an empty
message ends in the error state with the fallback banner, keeping the
verdict. -/
theorem scan_error_banner_witness :
    (handleScan envImgFailW "k" ⟨"wiki", "Rudolph"⟩ idleState false).finalState =
      { status := Status.error, error := some (errDisplay ""),
        verdict := some ⟨"nice", "a toy reindeer"⟩, generatedImage := none }
    ∧ errDisplay "" ≠ "" :=
  (scan_error_banner envImgFailW "k" ⟨"wiki", "Rudolph"⟩ idleState false
    (by decide)).2.2 "wiki page for Rudolph" ⟨"nice", "a toy reindeer"⟩ "" rfl rfl rfl

/-- Claim C2: on a scan with no exception, the states are entered in
exactly the order fetching_data, judging, generating_image, complete;
the verdict is stored at the transition into generating_image (still no
image at that point), and the image at the transition into complete. -/
theorem scan_happy_path_trace (env : ScanEnv) (apiKey : String) (input : ScanInput)
    (s0 : AppState) (m0 : Bool) (hk : apiKey ≠ "")
    (t : String) (v : Verdict) (img : String)
    (hf : fetchEvidence env apiKey input = Except.ok t)
    (hj : env.judgeInput t apiKey = Except.ok v)
    (hg : env.generateToyOrCoal v.visual_prompt apiKey = Except.ok img) :
    (handleScan env apiKey input s0 m0).trace =
      [ { status := Status.fetching_data, error := none, verdict := none,
          generatedImage := none },
        { status := Status.judging, error := none, verdict := none,
          generatedImage := none },
        { status := Status.generating_image, error := none, verdict := some v,
          generatedImage := none },
        { status := Status.complete, error := none, verdict := some v,
          generatedImage := some img } ]
  ∧ (handleScan env apiKey input s0 m0).trace.map AppState.status =
      [Status.fetching_data, Status.judging, Status.generating_image, Status.complete] := by
  refine ⟨?_, ?_⟩ <;> simp [handleScan, if_neg hk, hf, hj, hg]

/-- Witness for C2: the successful wiki scan of the end-to-end scenario
walks the four phases in order. -/
theorem scan_happy_path_trace_witness :
    (handleScan envW "k" ⟨"wiki", "Rudolph"⟩ idleState false).trace =
      [ { status := Status.fetching_data, error := none, verdict := none,
          generatedImage := none },
        { status := Status.judging, error := none, verdict := none,
          generatedImage := none },
        { status := Status.generating_image, error := none,
          verdict := some ⟨"nice", "a toy reindeer"⟩, generatedImage := none },
        { status := Status.complete, error := none,
          verdict := some ⟨"nice", "a toy reindeer"⟩, generatedImage := some "base64image" } ]
  ∧ (handleScan envW "k" ⟨"wiki", "Rudolph"⟩ idleState false).trace.map AppState.status =
      [Status.fetching_data, Status.judging, Status.generating_image, Status.complete] :=
  scan_happy_path_trace envW "k" ⟨"wiki", "Rudolph"⟩ idleState false (by decide)
    "wiki page for Rudolph" ⟨"nice", "a toy reindeer"⟩ "base64image" rfl rfl rfl

/-- Claim C3: the evidence fetch dispatches on the source type: wiki to
the encyclopedia fetch with the content, github to the source-control
fetch with the content, reddit to the social-media fetch with content
and key, news to deep research with content and key, and any other type
performs no fetch, yielding the raw content unchanged. -/
theorem fetch_dispatch (env : ScanEnv) (apiKey c ty : String) :
    fetchEvidence env apiKey ⟨"wiki", c⟩ = env.fetchWikiContent c
  ∧ fetchEvidence env apiKey ⟨"github", c⟩ = env.fetchGithubActivity c
  ∧ fetchEvidence env apiKey ⟨"reddit", c⟩ = env.fetchRedditActivity c apiKey
  ∧ fetchEvidence env apiKey ⟨"news", c⟩ = env.performDeepResearch c apiKey
  ∧ (ty ≠ "wiki" → ty ≠ "github" → ty ≠ "reddit" → ty ≠ "news" →
      fetchEvidence env apiKey ⟨ty, c⟩ = Except.ok c) := by
  refine ⟨rfl, rfl, rfl, rfl, ?_⟩
  intro h1 h2 h3 h4
  simp [fetchEvidence, h1, h2, h3, h4]

/-- Witness for C3: an unrecognized source type passes the raw content
through unchanged. -/
theorem fetch_dispatch_witness :
    fetchEvidence envW "k" ⟨"tiktok", "Rudolph"⟩ = Except.ok "Rudolph" :=
  (fetch_dispatch envW "k" "Rudolph" "tiktok").2.2.2.2
    (by decide) (by decide) (by decide) (by decide)

/-- Claim C4: submitting a scan with an empty API key opens the key
modal and changes nothing else: no state transition occurs and no
external call is made (the result is the same for every environment). -/
theorem scan_without_key (env : ScanEnv) (input : ScanInput) (s0 : AppState) (m0 : Bool) :
    handleScan env "" input s0 m0 =
      { trace := [], finalState := s0, showKeyModal := true } := rfl

/-- Claim C5: the input form is disabled exactly when the status is one
of the three intermediate phases fetching_data, judging, or
generating_image, so no new submission is accepted mid-scan. -/
theorem form_disabled_iff_intermediate (st : AppState) :
    isProcessing st = true ↔
      (st.status = Status.fetching_data ∨ st.status = Status.judging ∨
        st.status = Status.generating_image) := by
  rcases st with ⟨s, e, v, g⟩
  cases s <;> simp [isProcessing]

/-- Claim C6: every submission made with a present API key starts by
setting status to fetching_data and clearing the prior verdict, image
and error, whatever the previous state (complete, error, or other). -/
theorem scan_resets_state (env : ScanEnv) (apiKey : String) (input : ScanInput)
    (s0 : AppState) (m0 : Bool) (hk : apiKey ≠ "") :
    (handleScan env apiKey input s0 m0).trace.head? =
      some { status := Status.fetching_data, error := none, verdict := none,
             generatedImage := none } := by
  simp only [handleScan, if_neg hk]
  split <;> try split
  all_goals first | rfl | (split <;> rfl)

/-- Witness for C6: resubmitting from a terminal error state re-enters
fetching_data with cleared fields. -/
theorem scan_resets_state_witness :
    (handleScan envW "k" ⟨"github", "octocat"⟩
        { status := Status.error, error := some "boom",
          verdict := some ⟨"naughty", "coal"⟩, generatedImage := some "oldimg" }
        false).trace.head? =
      some { status := Status.fetching_data, error := none, verdict := none,
             generatedImage := none } :=
  scan_resets_state envW "k" ⟨"github", "octocat"⟩
    { status := Status.error, error := some "boom",
      verdict := some ⟨"naughty", "coal"⟩, generatedImage := some "oldimg" }
    false (by decide)

/-- Claim C7: saving the key with a whitespace-only input is a no-op;
otherwise the trimmed key is stored both in local storage and in
memory and the key modal closes; in particular saving whitespace-padded
abc stores abc. -/
theorem save_api_key_trims (tempKey : String) (st : KeyState) :
    (jsTrim tempKey = "" → saveApiKey tempKey st = st)
  ∧ (jsTrim tempKey ≠ "" → saveApiKey tempKey st =
      { apiKey := jsTrim tempKey, storedKey := some (jsTrim tempKey),
        showKeyModal := false })
  ∧ saveApiKey "  abc  " st =
      { apiKey := "abc", storedKey := some "abc", showKeyModal := false } := by
  have habc : jsTrim "  abc  " = "abc" := by decide
  refine ⟨fun h => ?_, fun h => ?_, ?_⟩
  · simp [saveApiKey, h]
  · simp [saveApiKey, h]
  · simp [saveApiKey, habc]

/-- Witness for C7: saving a whitespace-only key leaves the state
untouched. -/
theorem save_api_key_trims_witness : saveApiKey "   " kst0 = kst0 :=
  (save_api_key_trims "   " kst0).1 (by decide)

/-- Claim C8: the export unlock succeeds (download triggered, modal
closed) exactly when the entered password equals HOHOHO
case-insensitively; hohoho, HOHOHO and HoHoHo succeed, while any other
string such as xmas sets the error flag and triggers no download. -/
theorem unlock_sleigh_password (pw : String) (st : ExportState) :
    ((handleUnlockSleigh pw st).2 = true ↔ jsToUpper pw = jsToUpper "HOHOHO")
  ∧ (jsToUpper pw = "HOHOHO" →
      handleUnlockSleigh pw st = ({ st with showExportModal := false }, true))
  ∧ (jsToUpper pw ≠ "HOHOHO" →
      handleUnlockSleigh pw st = ({ st with passwordError := true }, false))
  ∧ (handleUnlockSleigh "hohoho" st).2 = true
  ∧ (handleUnlockSleigh "HOHOHO" st).2 = true
  ∧ (handleUnlockSleigh "HoHoHo" st).2 = true
  ∧ handleUnlockSleigh "xmas" st = ({ st with passwordError := true }, false) := by
  have hH : jsToUpper "HOHOHO" = "HOHOHO" := by decide
  have hlo : jsToUpper "hohoho" = "HOHOHO" := by decide
  have hmx : jsToUpper "HoHoHo" = "HOHOHO" := by decide
  have hxm : jsToUpper "xmas" ≠ "HOHOHO" := by decide
  refine ⟨?_, fun h => ?_, fun h => ?_, ?_, ?_, ?_, ?_⟩
  · rw [hH]
    unfold handleUnlockSleigh
    split <;> simp [*]
  · simp [handleUnlockSleigh, h]
  · simp [handleUnlockSleigh, h]
  · simp [handleUnlockSleigh, hlo]
  · simp [handleUnlockSleigh, hH]
  · simp [handleUnlockSleigh, hmx]
  · simp [handleUnlockSleigh, hxm]

/-- Witness for C8: the mixed-case password HoHoHo unlocks the export
and closes the modal. -/
theorem unlock_sleigh_password_witness :
    handleUnlockSleigh "HoHoHo" est0 = ({ est0 with showExportModal := false }, true) :=
  (unlock_sleigh_password "HoHoHo" est0).2.1 (by decide)

/-- Claim C9: at startup the key comes from local storage when a
(non-empty) stored value is present, regardless of the build-time
default; otherwise from the build-time default when present; otherwise
it stays empty. -/
theorem init_api_key_precedence :
    (∀ k envKey, k ≠ "" → initApiKey (some k) envKey = k)
  ∧ (∀ storedKey e, optTruthy storedKey = false → e ≠ "" →
      initApiKey storedKey (some e) = e)
  ∧ (∀ storedKey envKey, optTruthy storedKey = false → optTruthy envKey = false →
      initApiKey storedKey envKey = "") := by
  refine ⟨fun k envKey hk => ?_, fun storedKey e hs he => ?_, fun storedKey envKey hs he => ?_⟩
  · simp [initApiKey, optTruthy, hk]
  · have h1 : optTruthy (some e) = true := by simp [optTruthy, he]
    rw [initApiKey, if_neg (by simp [hs]), if_pos h1]
    rfl
  · simp [initApiKey, hs, he]

/-- Witness for C9: a stored key wins over a build-time default. -/
theorem init_api_key_precedence_witness :
    initApiKey (some "stored-key") (some "env-key") = "stored-key" :=
  init_api_key_precedence.1 "stored-key" (some "env-key") (by decide)

/-- Claim C10: a scan started with a present API key never leaves the
status in an intermediate working state: the handler always ends with
status complete or error. -/
theorem scan_terminates (env : ScanEnv) (apiKey : String) (input : ScanInput)
    (s0 : AppState) (m0 : Bool) (hk : apiKey ≠ "") :
    (handleScan env apiKey input s0 m0).finalState.status = Status.complete ∨
    (handleScan env apiKey input s0 m0).finalState.status = Status.error := by
  simp only [handleScan, if_neg hk]
  split
  · exact Or.inr rfl
  · split
    · exact Or.inr rfl
    · split
      · exact Or.inr rfl
      · exact Or.inl rfl

/-- Witness for C10: the end-to-end wiki scan ends in the complete
status. -/
theorem scan_terminates_witness :
    (handleScan envW "k" ⟨"wiki", "Rudolph"⟩ idleState false).finalState.status =
        Status.complete ∨
    (handleScan envW "k" ⟨"wiki", "Rudolph"⟩ idleState false).finalState.status =
        Status.error :=
  scan_terminates envW "k" ⟨"wiki", "Rudolph"⟩ idleState false (by decide)

end SantasHelper
